import Mathlib

/-!
Verification of the streaming XML-to-SQLite loader in
`src/stackexchange/tables.py` (class `Table`: `create_if_not_exists`,
`parse_row`, `insert_from_xml` with its inner `pull_rows` generator).

The shallow embedding below translates that file into Lean:

* a source file is a `List String` of its lines;
* `strip`, `pyInt`, `pyStartswith` model the Python string primitives
  `str.strip()`, `int(str)` and `str.startswith` used by the code
  (`pyInt` covers sign and surrounding whitespace; Python's underscore
  digit separators are not modelled, no claim depends on them);
* `fromstring` models `xml.etree.ElementTree.fromstring(line).attrib`
  for the dump format the loader is written for: one self-closing XML
  element per line (`<row A="x" B="y" />`), returning the attribute list;
* the destination store (sqlite3 connection) is external to the
  repository; `Store` models the slice of its interface the loader uses:
  a primary-key column projection (`pk`, the indices of the key columns
  declared by the DDL), injected non-integrity failures (`fails`, e.g.
  disk errors, for rows whose insertion raises a `sqlite3.Error` that is
  not an `IntegrityError`), and the rows visible to the transaction;
* exceptions become `Except` / the `LoadErr` type: `stopIteration` for
  `next(it)` on an exhausted iterator, `xmlError` for `ET.ParseError`,
  `valueError` for `int()` failures (the spec's `ParseError` covers the
  latter two), `storeError` for other store errors, carrying the
  `last_row` value the code prints before re-raising;
* `insert_from_xml` returns a `LoadOutcome`: the result (committed rows
  or propagated error) plus whether `fd.close()` and `cur.close()` were
  executed before control returned to the caller (the code runs them
  only after `db.commit()`; there is no `try`/`finally`).

`tqdm` progress display and the `description` argument have no effect on
control flow or results and are not modelled beyond the advisory
`record_count` pre-scan.
-/

set_option autoImplicit false
set_option maxRecDepth 10000

namespace Stackexchange

/-- Scalar values held by a column of the destination store. -/
inductive Value where
  | int (i : Int)
  | text (s : String)
deriving DecidableEq

/-- A parsed row: the `OrderedDict` built by `Table.parse_row`, an ordered
mapping from internal column name to an optional scalar (`None` ↦ `none`). -/
abbrev Row := List (String × Option Value)

/-- The exceptions the loader can raise or observe.  `stopIteration` is
`next(it)` on an exhausted file iterator; `xmlError` is `ET.ParseError`;
`valueError` is `int()` on a non-numeric string (together these are the
spec's `ParseError`); `storeError` is any `sqlite3.Error` that is not an
`IntegrityError`, carrying the `last_row` the code prints before `raise e`. -/
inductive LoadErr where
  | stopIteration
  | xmlError
  | valueError
  | storeError (lastRow : Row)
deriving DecidableEq

/-- The whitespace characters Python's `str.strip()` and `int()` remove. -/
def isPySpace (c : Char) : Bool :=
  c == ' ' || c == '\t' || c == '\n' || c == '\r' || c == '\x0b' || c == '\x0c'

/-- Models Python `str.strip()`: drop leading and trailing whitespace. -/
def strip (s : String) : String :=
  ⟨((s.data.dropWhile isPySpace).reverse.dropWhile isPySpace).reverse⟩

/-- Decimal digits to a natural number; `none` on a non-digit. -/
def digitsAux : List Char → Nat → Option Nat
  | [], acc => some acc
  | c :: cs, acc =>
    if c.isDigit then digitsAux cs (acc * 10 + (c.toNat - 48)) else none

/-- Models Python `int(str)`: optional surrounding whitespace, optional
sign, at least one decimal digit; `none` where Python raises `ValueError`. -/
def pyInt (s : String) : Option Int :=
  let cs := ((s.data.dropWhile isPySpace).reverse.dropWhile isPySpace).reverse
  match cs with
  | '-' :: ds => if ds = [] then none else (digitsAux ds 0).map (fun n => -(n : Int))
  | '+' :: ds => if ds = [] then none else (digitsAux ds 0).map (fun n => (n : Int))
  | ds => if ds = [] then none else (digitsAux ds 0).map (fun n => (n : Int))

/-- Models Python `s.startswith(p)`. -/
def pyStartswith (s p : String) : Bool :=
  s.data.take p.data.length == p.data

/-- The Schema Descriptor: `Table(name, schema, constraints)` of
`tables.py`.  `schema` is the `OrderedDict` as an ordered list of
`(internal column name, (source attribute or None, storage type))`. -/
structure Table where
  name : String
  schema : List (String × Option String × String)
  constraints : List String

/-- The string `f"</{self.name}>"` that terminates the record section. -/
def endtag (t : Table) : String := "</" ++ t.name ++ ">"

/-- The SQL of `Table.create_if_not_exists`:
`CREATE TABLE IF NOT EXISTS {name} ({", ".join(columns + constraints)});`
with `columns = [f"{col} {typ}" ...]`. -/
def createSql (t : Table) : String :=
  let columns := t.schema.map (fun c => c.1 ++ " " ++ c.2.2)
  "CREATE TABLE IF NOT EXISTS " ++ t.name ++ " (" ++
    String.intercalate ", " (columns ++ t.constraints) ++ ");"

/-- Executing the DDL against the store.  The store's catalogue is a list
of `(table name, schema SQL)` pairs; `CREATE TABLE IF NOT EXISTS` is a
no-op when a table of that name already exists (sqlite semantics). -/
def create_if_not_exists (t : Table) (tables : List (String × String)) :
    List (String × String) :=
  if tables.any (fun p => p.1 == t.name) then tables
  else (t.name, createSql t) :: tables

/-- The DDL statement as §4.1 of the spec words it: join
`"{internal_name} {storage_type}"` for every column, append the raw
constraint clauses, emit a `CREATE TABLE IF NOT EXISTS` statement.
Spec-side definition, compared with `createSql` in the C7 theorem. -/
def specCreateSql (t : Table) : String :=
  "CREATE TABLE IF NOT EXISTS " ++ t.name ++ " (" ++
    String.intercalate ", "
      (t.schema.map (fun c => c.1 ++ " " ++ c.2.2) ++ t.constraints) ++ ");"

/-- First value bound to a key in an attribute list (`xml_root.attrib`
lookup; an XML element cannot repeat an attribute name). -/
def lookupAttr (k : String) : List (String × String) → Option String
  | [] => none
  | (a, v) :: rest => if a == k then some v else lookupAttr k rest

/-- The column loop of `Table.parse_row`: for each `(col, (attr, typ))`,
if `attr in xml_root.attrib` take the string (converted by `int` when
`typ.startswith("INTEGER")`, raising `ValueError` on non-numeric text),
else `None`.  A configured attribute of `None` is never a key of
`attrib`, so it also yields `None`. -/
def parseCols (attrib : List (String × String)) :
    List (String × Option String × String) → Except LoadErr Row
  | [] => .ok []
  | (col, attr, typ) :: rest =>
    match attr with
    | some aname =>
      match lookupAttr aname attrib with
      | some v =>
        if pyStartswith typ "INTEGER" then
          match pyInt v with
          | some n => (parseCols attrib rest).map (fun r => (col, some (Value.int n)) :: r)
          | none => .error .valueError
        else (parseCols attrib rest).map (fun r => (col, some (Value.text v)) :: r)
      | none => (parseCols attrib rest).map (fun r => (col, none) :: r)
    | none => (parseCols attrib rest).map (fun r => (col, none) :: r)

/-- The function `Table.parse_row(xml_root)` on the element's attribute mapping. -/
def parse_row (t : Table) (attrib : List (String × String)) : Except LoadErr Row :=
  parseCols attrib t.schema

/-- The value §4.1 of the spec assigns to one declared column: source
attribute present → the raw string, parsed to an integer for the integer
family; attribute configured as none, or absent from the record → null.
Spec-side definition, compared with `parse_row` in the C6 theorem. -/
def specColumnValue (attrib : List (String × String))
    (c : String × Option String × String) : Option Value :=
  match c.2.1 with
  | none => none
  | some aname =>
    match lookupAttr aname attrib with
    | none => none
    | some v =>
      if pyStartswith c.2.2 "INTEGER" then (pyInt v).map Value.int
      else some (Value.text v)

/-- The Row §4.1 of the spec describes: exactly one entry per declared
column, in declaration order. -/
def specParsedRow (t : Table) (attrib : List (String × String)) : Row :=
  t.schema.map (fun c => (c.1, specColumnValue attrib c))

/-- Attribute list of a self-closing element, after the tag name: skip
whitespace, read `name="value"` pairs, stop at `/>`.  Fuel-driven
recursion; the fuel is an upper bound on the characters left, so a
well-formed input never exhausts it. -/
def parseAttrs : Nat → List Char → Except LoadErr (List (String × String))
  | 0, _ => .error .xmlError
  | _ + 1, [] => .error .xmlError
  | _ + 1, '/' :: '>' :: rest => if rest = [] then .ok [] else .error .xmlError
  | fuel + 1, c :: cs' =>
      if isPySpace c then parseAttrs fuel cs'
      else
        let aname := (c :: cs').takeWhile
          (fun d => !(d == '=') && !(isPySpace d) && !(d == '/') && !(d == '>'))
        match (c :: cs').drop aname.length with
        | '=' :: '"' :: r2 =>
          let v := r2.takeWhile (fun d => !(d == '"'))
          match r2.drop v.length with
          | '"' :: r3 =>
            (parseAttrs fuel r3).map (fun as => (String.mk aname, String.mk v) :: as)
          | _ => .error .xmlError
        | _ => .error .xmlError

/-- Models `ET.fromstring(line).attrib` for the dump format (one
self-closing element per stripped line): `<tag a="x" b="y" />` yields the
attribute list; anything else is an `ET.ParseError`. -/
def fromstring (s : String) : Except LoadErr (List (String × String)) :=
  match s.data with
  | '<' :: rest =>
    let tag := rest.takeWhile (fun c => !(isPySpace c) && !(c == '/') && !(c == '>'))
    if tag = [] then .error .xmlError
    else parseAttrs (rest.length + 1) (rest.drop tag.length)
  | _ => .error .xmlError

/-- Applying the optional `filter_row` argument: absent → row unchanged
(a parsed `OrderedDict` is never `None`); present → its result. -/
def applyFilter (f : Option (Row → Option Row)) (row : Row) : Option Row :=
  match f with
  | none => some row
  | some g => g row

/-- The `pull_rows` generator over the record lines (everything after the
two framing lines): per line, strip; `break` on the closing tag; parse
the element and the row; apply `filter_row`, `continue` on `None`; yield
the row.  Returns the rows yielded in order together with the terminal
event: `none` when the `for` loop finished (`done = True`), `some e`
when parsing raised `e` mid-stream, aborting the generator. -/
def pullRows (t : Table) (f : Option (Row → Option Row)) :
    List String → List Row × Option LoadErr
  | [] => ([], none)
  | line :: rest =>
    let l := strip line
    if l == endtag t then ([], none)
    else
      match fromstring l with
      | .error e => ([], some e)
      | .ok attrib =>
        match parse_row t attrib with
        | .error e => ([], some e)
        | .ok row =>
          match applyFilter f row with
          | none => pullRows t f rest
          | some r =>
            let p := pullRows t f rest
            (r :: p.1, p.2)

/-- Models `list(row.values())`: the bind values of one yielded row. -/
def vals (row : Row) : List (Option Value) := row.map (fun p => p.2)

/-- The destination store (the sqlite3 connection handed to the loader,
external to the repository, per §6 of the spec): `pk` is the projection
of a row onto its primary-key column indices as declared by the DDL;
`fails` injects the store-level failures that raise a `sqlite3.Error`
other than `IntegrityError` (disk errors, connection loss) on a given
row's values; `rows` is the table contents visible to the transaction. -/
structure Store where
  pk : List Nat
  fails : List (Option Value) → Bool
  rows : List (List (Option Value))

/-- Projection of a row's values onto the primary-key columns. -/
def keyProj (pk : List Nat) (v : List (Option Value)) : List (Option Value) :=
  pk.map (fun i => v.getD i none)

/-- Uniqueness check of the store: does inserting `v` violate the primary
key against the rows already visible to the transaction? -/
def conflictsWith (pk : List Nat) (tbl : List (List (Option Value)))
    (v : List (Option Value)) : Bool :=
  tbl.any (fun r => keyProj pk r == keyProj pk v)

/-- The `while not done: cur.executemany(insert_sql, data)` loop of
`insert_from_xml`, flattened to one step per pulled row (`executemany`
consumes the generator one parameter row at a time).  Per row: a
non-integrity store failure prints `last_row` — which at that point is
the row whose insertion failed, set by the generator just before
yielding it — and re-raises (`except Error`); a primary-key conflict is
dropped, either by the SQL-level `INSERT OR IGNORE` when `exist_ok` or
by `except IntegrityError: continue` re-entering `executemany` on the
remaining rows (the offending parameter row was already consumed);
otherwise the row joins the transaction. -/
def insertLoop (exist_ok : Bool) (pk : List Nat)
    (fl : List (Option Value) → Bool) (tbl : List (List (Option Value))) :
    List Row → Except LoadErr (List (List (Option Value)))
  | [] => .ok tbl
  | row :: rest =>
    let v := vals row
    if fl v then .error (.storeError row)
    else if conflictsWith pk tbl v then
      if exist_ok then insertLoop exist_ok pk fl tbl rest
      else insertLoop exist_ok pk fl tbl rest
    else insertLoop exist_ok pk fl (tbl ++ [v]) rest

/-- The table contents after feeding a row list through the insert loop
when no non-integrity store failure occurs: conflicting rows are
dropped, the rest appended in order. -/
def insertAll (pk : List Nat) (tbl : List (List (Option Value))) :
    List Row → List (List (Option Value))
  | [] => tbl
  | row :: rest =>
    if conflictsWith pk tbl (vals row) then insertAll pk tbl rest
    else insertAll pk (tbl ++ [vals row]) rest

/-- Conflicting (integrity-dropped) rows seen by the insert loop. -/
def droppedCount (pk : List Nat) (tbl : List (List (Option Value))) :
    List Row → Nat
  | [] => 0
  | row :: rest =>
    if conflictsWith pk tbl (vals row) then droppedCount pk tbl rest + 1
    else droppedCount pk (tbl ++ [vals row]) rest

/-- The result of one `insert_from_xml` call: the transaction committed
with the final table contents, or an exception propagated to the caller
(in which case `db.commit()` was never reached). -/
inductive LoadResult where
  | committed (rows : List (List (Option Value)))
  | failed (e : LoadErr)
deriving DecidableEq

/-- Whether the load reached `db.commit()`. -/
def LoadResult.isCommitted : LoadResult → Bool
  | .committed _ => true
  | .failed _ => false

/-- Observable outcome of `insert_from_xml`: the result plus whether
`fd.close()` and `cur.close()` executed before control returned. -/
structure LoadOutcome where
  result : LoadResult
  fdClosed : Bool
  curClosed : Bool
deriving DecidableEq

/-- The advisory pre-scan
`record_count = sum(1 for _ in open(path, "r")) - 3`, used only as the
`tqdm` progress total; it never affects control flow or results. -/
def record_count (lines : List String) : Int := (lines.length : Int) - 3

/-- The method `Table.insert_from_xml(db, path, exist_ok, filter_row)` on a source
file given as its list of lines.  `next(it)` is applied twice to skip
the framing lines, raising `StopIteration` on a file of fewer than two
lines (before the cursor exists and before anything is parsed,
inserted, or committed, and without `fd.close()`).  Otherwise the
record lines feed the `pull_rows` generator; its yields drive the
`executemany` loop; a store error from the loop, or the generator's own
parse exception propagating through `executemany`, aborts the call with
nothing committed and neither handle closed (there is no
`try`/`finally` in the source).  Only after the loop drains cleanly do
`db.commit()`, `cur.close()` and `fd.close()` run, in that order. -/
def insert_from_xml (t : Table) (st : Store) (lines : List String)
    (exist_ok : Bool) (filter_row : Option (Row → Option Row)) : LoadOutcome :=
  if lines.length < 2 then
    ⟨.failed .stopIteration, false, false⟩
  else
    match insertLoop exist_ok st.pk st.fails st.rows
        (pullRows t filter_row (lines.drop 2)).1 with
    | .error e => ⟨.failed e, false, false⟩
    | .ok tbl =>
      match (pullRows t filter_row (lines.drop 2)).2 with
      | some e => ⟨.failed e, false, false⟩
      | none => ⟨.committed tbl, true, true⟩

/-- The record lines of the body: everything up to the closing tag. -/
def recordLines (t : Table) (body : List String) : List String :=
  body.takeWhile (fun l => !(strip l == endtag t))

/-- Record lines whose row the `filter_row` hook discards (returns
`None` for), counted along the same path `pull_rows` walks. -/
def countFiltered (t : Table) (f : Option (Row → Option Row)) :
    List String → Nat
  | [] => 0
  | line :: rest =>
    let l := strip line
    if l == endtag t then 0
    else
      match fromstring l with
      | .error _ => 0
      | .ok attrib =>
        match parse_row t attrib with
        | .error _ => 0
        | .ok row =>
          match applyFilter f row with
          | none => countFiltered t f rest + 1
          | some _ => countFiltered t f rest

/-- A record line the loader parses successfully: its stripped text is a
well-formed element and every integer-typed present attribute is
numeric. -/
def lineOk (t : Table) (l : String) : Bool :=
  match fromstring (strip l) with
  | .error _ => false
  | .ok attrib =>
    match parse_row t attrib with
    | .error _ => false
    | .ok _ => true

/-- The `sites` Table instance of `tables.py`. -/
def sites : Table :=
  ⟨"sites",
   [("id",             some "Id",            "INTEGER PRIMARY KEY"),
    ("url",            some "Url",           "TEXT"),
    ("tiny_name",      some "TinyName",      "TEXT"),
    ("long_name",      some "LongName",      "TEXT"),
    ("name",           some "Name",          "TEXT"),
    ("parent_id",      some "ParentId",      "INTEGER"),
    ("tagline",        some "Tagline",       "TEXT"),
    ("badge_icon_url", some "BadgeIconUrl",  "TEXT")],
   []⟩

/-- The `posts` Table instance of `tables.py`. -/
def posts : Table :=
  ⟨"posts",
   [("id",                 some "Id",               "INTEGER"),
    ("site_id",            none,                    "INTEGER"),
    ("post_type",          some "PostTypeId",       "INTEGER NOT NULL"),
    ("accepted_answer_id", some "AcceptedAnswerId", "INTEGER"),
    ("creation_date",      some "CreationDate",     "TEXT NOT NULL"),
    ("score",              some "Score",            "INTEGER NOT NULL"),
    ("view_count",         some "ViewCount",        "INTEGER"),
    ("body",               some "Body",             "TEXT"),
    ("user_id",            some "OwnerUserId",      "INTEGER"),
    ("last_activity_date", some "LastActivityDate", "TEXT"),
    ("title",              some "Title",            "TEXT"),
    ("tags",               some "Tags",             "TEXT"),
    ("answer_count",       some "AnswerCount",      "INTEGER"),
    ("comment_count",      some "CommentCount",     "INTEGER")],
   ["PRIMARY KEY (id, site_id)",
    "FOREIGN KEY (site_id) REFERENCES sites (id)",
    "FOREIGN KEY (user_id, site_id) REFERENCES users (id, site_id)",
    "FOREIGN KEY (accepted_answer_id, site_id) REFERENCES posts (id, site_id)"]⟩

/-- The `users` Table instance of `tables.py`. -/
def users : Table :=
  ⟨"users",
   [("id",            some "Id",              "INTEGER"),
    ("site_id",       none,                   "INTEGER"),
    ("reputation",    some "Reputation",      "INTEGER NOT NULL"),
    ("creation_date", some "CreationDate",    "TEXT"),
    ("display_name",  some "DisplayName",     "TEXT"),
    ("url",           some "WebsiteUrl",      "TEXT"),
    ("location",      some "Location",        "TEXT"),
    ("about_me",      some "AboutMe",         "TEXT"),
    ("views",         some "Views",           "INTEGER"),
    ("profile_image", some "ProfileImageUrl", "TEXT"),
    ("account_id",    some "AccountId",       "INTEGER"),
    ("up_votes",      some "UpVotes",         "INTEGER")],
   ["PRIMARY KEY (id, site_id)",
    "FOREIGN KEY (site_id) REFERENCES sites (id)"]⟩

/-- An empty `sites` table in a well-behaved store: primary key on
column 0 (`id INTEGER PRIMARY KEY`), no injected store failures. -/
def st0 : Store := ⟨[0], fun _ => false, []⟩

/-! ### Step lemmas for `pullRows` -/

theorem pullRows_cons_endtag (t : Table) (f : Option (Row → Option Row))
    (x : String) (rest : List String) (h : (strip x == endtag t) = true) :
    pullRows t f (x :: rest) = ([], none) := by
  simp [pullRows, h]

theorem pullRows_cons_xmlerr (t : Table) (f : Option (Row → Option Row))
    (x : String) (rest : List String) (e : LoadErr)
    (h1 : (strip x == endtag t) = false) (h2 : fromstring (strip x) = .error e) :
    pullRows t f (x :: rest) = ([], some e) := by
  simp [pullRows, h1, h2]

theorem pullRows_cons_parseerr (t : Table) (f : Option (Row → Option Row))
    (x : String) (rest : List String) (attrib : List (String × String)) (e : LoadErr)
    (h1 : (strip x == endtag t) = false) (h2 : fromstring (strip x) = .ok attrib)
    (h3 : parse_row t attrib = .error e) :
    pullRows t f (x :: rest) = ([], some e) := by
  simp [pullRows, h1, h2, h3]

theorem pullRows_cons_skip (t : Table) (f : Option (Row → Option Row))
    (x : String) (rest : List String) (attrib : List (String × String)) (row : Row)
    (h1 : (strip x == endtag t) = false) (h2 : fromstring (strip x) = .ok attrib)
    (h3 : parse_row t attrib = .ok row) (h4 : applyFilter f row = none) :
    pullRows t f (x :: rest) = pullRows t f rest := by
  simp [pullRows, h1, h2, h3, h4]

theorem pullRows_cons_keep (t : Table) (f : Option (Row → Option Row))
    (x : String) (rest : List String) (attrib : List (String × String))
    (row r : Row)
    (h1 : (strip x == endtag t) = false) (h2 : fromstring (strip x) = .ok attrib)
    (h3 : parse_row t attrib = .ok row) (h4 : applyFilter f row = some r) :
    pullRows t f (x :: rest) =
      (r :: (pullRows t f rest).1, (pullRows t f rest).2) := by
  simp [pullRows, h1, h2, h3, h4]

theorem recordLines_cons_of_ne (t : Table) (x : String) (rest : List String)
    (hx : (strip x == endtag t) = false) :
    recordLines t (x :: rest) = x :: recordLines t rest := by
  simp [recordLines, List.takeWhile_cons, hx]

theorem recordLines_cons_of_eq (t : Table) (x : String) (rest : List String)
    (hx : (strip x == endtag t) = true) :
    recordLines t (x :: rest) = [] := by
  simp [recordLines, List.takeWhile_cons, hx]

/-! ### Lemmas about the insert loop -/

/-- On a store with no injected failures the insert loop never raises:
conflicting rows are dropped (`INSERT OR IGNORE` or the caught
`IntegrityError`), the rest inserted. -/
theorem insertLoop_ok (eo : Bool) (pk : List Nat)
    (fl : List (Option Value) → Bool) (hf : ∀ v, fl v = false) :
    ∀ (rows : List Row) (tbl : List (List (Option Value))),
      insertLoop eo pk fl tbl rows = .ok (insertAll pk tbl rows) := by
  intro rows
  induction rows with
  | nil => intro tbl; rfl
  | cons row rest ih =>
    intro tbl
    simp only [insertLoop, insertAll, hf, Bool.false_eq_true, if_false]
    by_cases hc : conflictsWith pk tbl (vals row) = true
    · simp only [hc, if_true, ite_self]
      exact ih tbl
    · simp only [Bool.not_eq_true] at hc
      simp only [hc, Bool.false_eq_true, if_false]
      exact ih (tbl ++ [vals row])

theorem insertAll_append (pk : List Nat) (xs ys : List Row) :
    ∀ tbl, insertAll pk tbl (xs ++ ys) = insertAll pk (insertAll pk tbl xs) ys := by
  induction xs with
  | nil => intro tbl; rfl
  | cons x xs ih =>
    intro tbl
    simp only [List.cons_append, insertAll]
    split
    · exact ih tbl
    · exact ih (tbl ++ [vals x])

theorem insertAll_conflict_cons (pk : List Nat) (tbl : List (List (Option Value)))
    (d : Row) (post : List Row) (h : conflictsWith pk tbl (vals d) = true) :
    insertAll pk tbl (d :: post) = insertAll pk tbl post := by
  simp [insertAll, h]

theorem insertAll_length (pk : List Nat) (rows : List Row) :
    ∀ tbl, (insertAll pk tbl rows).length + droppedCount pk tbl rows
      = tbl.length + rows.length := by
  induction rows with
  | nil => intro tbl; simp [insertAll, droppedCount]
  | cons r rest ih =>
    intro tbl
    simp only [insertAll, droppedCount, List.length_cons]
    split
    · have := ih tbl
      omega
    · have := ih (tbl ++ [vals r])
      simp only [List.length_append, List.length_singleton] at this
      omega

/-- A non-integrity store failure aborts the loop at the failing row,
which is the `last_row` the code reports. -/
theorem insertLoop_fail (eo : Bool) (pk : List Nat)
    (fl : List (Option Value) → Bool) (r : Row) (rest : List Row)
    (hr : fl (vals r) = true) :
    ∀ (pre : List Row) (tbl), (∀ row ∈ pre, fl (vals row) = false) →
      insertLoop eo pk fl tbl (pre ++ r :: rest) = .error (.storeError r) := by
  intro pre
  induction pre with
  | nil =>
    intro tbl _
    simp [insertLoop, hr]
  | cons p ps ih =>
    intro tbl h
    have hp := h p (List.mem_cons_self _ _)
    have h' := fun row hrow => h row (List.mem_cons_of_mem _ hrow)
    simp only [List.cons_append, insertLoop, hp, Bool.false_eq_true, if_false]
    by_cases hc : conflictsWith pk tbl (vals p) = true
    · simp only [hc, if_true, ite_self]
      exact ih tbl h'
    · simp only [Bool.not_eq_true] at hc
      simp only [hc, Bool.false_eq_true, if_false]
      exact ih (tbl ++ [vals p]) h'

/-- Appending the closing tag line after a body changes nothing: the
generator stops at the first closing-tag line, at the first parse
exception, or — exactly as when the appended line is reached — at end of
input. -/
theorem pullRows_append_endtag (t : Table) (f : Option (Row → Option Row))
    (l : String) (hl : (strip l == endtag t) = true) :
    ∀ body, pullRows t f (body ++ [l]) = pullRows t f body := by
  intro body
  induction body with
  | nil =>
    simpa using pullRows_cons_endtag t f l [] hl
  | cons x rest ih =>
    by_cases hx : (strip x == endtag t) = true
    · rw [List.cons_append, pullRows_cons_endtag t f x _ hx,
        pullRows_cons_endtag t f x rest hx]
    · simp only [Bool.not_eq_true] at hx
      cases hfs : fromstring (strip x) with
      | error e =>
        rw [List.cons_append, pullRows_cons_xmlerr t f x _ e hx hfs,
          pullRows_cons_xmlerr t f x rest e hx hfs]
      | ok attrib =>
        cases hpr : parse_row t attrib with
        | error e =>
          rw [List.cons_append, pullRows_cons_parseerr t f x _ attrib e hx hfs hpr,
            pullRows_cons_parseerr t f x rest attrib e hx hfs hpr]
        | ok row =>
          cases hap : applyFilter f row with
          | none =>
            rw [List.cons_append, pullRows_cons_skip t f x _ attrib row hx hfs hpr hap,
              pullRows_cons_skip t f x rest attrib row hx hfs hpr hap, ih]
          | some r =>
            rw [List.cons_append, pullRows_cons_keep t f x _ attrib row r hx hfs hpr hap,
              pullRows_cons_keep t f x rest attrib row r hx hfs hpr hap, ih]

/-- With a filter that returns `None` for every row, a body whose record
lines all parse yields no rows and finishes cleanly. -/
theorem pullRows_filter_none (t : Table) :
    ∀ body, (∀ l ∈ recordLines t body, lineOk t l = true) →
      pullRows t (some (fun _ => none)) body = ([], none) := by
  intro body
  induction body with
  | nil => intro _; rfl
  | cons x rest ih =>
    intro h
    by_cases hx : (strip x == endtag t) = true
    · exact pullRows_cons_endtag t _ x rest hx
    · simp only [Bool.not_eq_true] at hx
      have hxok : lineOk t x = true := by
        apply h
        rw [recordLines_cons_of_ne t x rest hx]
        exact List.mem_cons_self _ _
      have hrest : ∀ l ∈ recordLines t rest, lineOk t l = true := by
        intro l hl
        apply h
        rw [recordLines_cons_of_ne t x rest hx]
        exact List.mem_cons_of_mem _ hl
      cases hfs : fromstring (strip x) with
      | error e => simp [lineOk, hfs] at hxok
      | ok attrib =>
        cases hpr : parse_row t attrib with
        | error e => simp [lineOk, hfs, hpr] at hxok
        | ok row =>
          rw [pullRows_cons_skip t (some (fun _ => none)) x rest attrib row hx hfs hpr
            rfl]
          exact ih hrest

/-- A run of good non-closing lines contributes some (filter-dependent)
list of rows and leaves the terminal event to the remaining lines. -/
theorem pullRows_append_good (t : Table) (f : Option (Row → Option Row)) :
    ∀ (pre rest : List String),
      (∀ l ∈ pre, (strip l == endtag t) = false ∧ lineOk t l = true) →
      ∃ rows0, pullRows t f (pre ++ rest)
        = (rows0 ++ (pullRows t f rest).1, (pullRows t f rest).2) := by
  intro pre
  induction pre with
  | nil => intro rest _; exact ⟨[], by simp⟩
  | cons x ps ih =>
    intro rest h
    obtain ⟨hx, hok⟩ := h x (List.mem_cons_self _ _)
    have h' := fun l hl => h l (List.mem_cons_of_mem _ hl)
    obtain ⟨rows0, hrows0⟩ := ih rest h'
    cases hfs : fromstring (strip x) with
    | error e => simp [lineOk, hfs] at hok
    | ok attrib =>
      cases hpr : parse_row t attrib with
      | error e => simp [lineOk, hfs, hpr] at hok
      | ok row =>
        cases hap : applyFilter f row with
        | none =>
          refine ⟨rows0, ?_⟩
          rw [List.cons_append, pullRows_cons_skip t f x _ attrib row hx hfs hpr hap,
            hrows0]
        | some r =>
          refine ⟨r :: rows0, ?_⟩
          rw [List.cons_append, pullRows_cons_keep t f x _ attrib row r hx hfs hpr hap,
            hrows0]
          simp

/-- Row accounting for a cleanly finished generator: yielded rows plus
filter-discarded record lines make up exactly the record lines. -/
theorem pullRows_count (t : Table) (f : Option (Row → Option Row)) :
    ∀ body rows, pullRows t f body = (rows, none) →
      rows.length + countFiltered t f body = (recordLines t body).length := by
  intro body
  induction body with
  | nil =>
    intro rows h
    simp only [pullRows, Prod.mk.injEq] at h
    simp [← h.1, countFiltered, recordLines]
  | cons x rest ih =>
    intro rows h
    by_cases hx : (strip x == endtag t) = true
    · rw [pullRows_cons_endtag t f x rest hx] at h
      simp only [Prod.mk.injEq] at h
      rw [recordLines_cons_of_eq t x rest hx]
      simp only [countFiltered, hx, if_true]
      simp [← h.1]
    · simp only [Bool.not_eq_true] at hx
      rw [recordLines_cons_of_ne t x rest hx]
      cases hfs : fromstring (strip x) with
      | error e =>
        rw [pullRows_cons_xmlerr t f x rest e hx hfs] at h
        simp at h
      | ok attrib =>
        cases hpr : parse_row t attrib with
        | error e =>
          rw [pullRows_cons_parseerr t f x rest attrib e hx hfs hpr] at h
          simp at h
        | ok row =>
          cases hap : applyFilter f row with
          | none =>
            rw [pullRows_cons_skip t f x rest attrib row hx hfs hpr hap] at h
            have := ih rows h
            simp only [countFiltered, hx, Bool.false_eq_true, if_false, hfs, hpr, hap,
              List.length_cons]
            omega
          | some r =>
            rw [pullRows_cons_keep t f x rest attrib row r hx hfs hpr hap] at h
            simp only [Prod.mk.injEq] at h
            have := ih (pullRows t f rest).1 (by rw [← h.2, Prod.mk.eta])
            simp only [countFiltered, hx, Bool.false_eq_true, if_false, hfs, hpr, hap,
              List.length_cons, ← h.1]
            omega

/-- A schema containing an integer-typed column whose present source
attribute is non-numeric makes `parse_row` raise — and its only possible
exception is `int()`'s `ValueError`. -/
theorem parseCols_bad (attrib : List (String × String)) :
    ∀ sch : List (String × Option String × String),
      (∃ c ∈ sch, ∃ a, c.2.1 = some a ∧ ∃ v, lookupAttr a attrib = some v ∧
        pyStartswith c.2.2 "INTEGER" = true ∧ pyInt v = none) →
      parseCols attrib sch = .error .valueError := by
  intro sch
  induction sch with
  | nil =>
    rintro ⟨c, hc, _⟩
    simp at hc
  | cons c0 rest ih =>
    rintro ⟨c, hc, a, ha, v, hv, hint, hbad⟩
    rcases List.mem_cons.mp hc with rfl | hmem
    · obtain ⟨col, attr, typ⟩ := c
      simp only at ha hint
      subst ha
      simp only [parseCols, hv, hint, if_true, hbad]
    · have hrest : parseCols attrib rest = .error .valueError :=
        ih ⟨c, hmem, a, ha, v, hv, hint, hbad⟩
      obtain ⟨col, attr, typ⟩ := c0
      cases attr with
      | none => simp [parseCols, hrest, Except.map]
      | some aname =>
        cases hla : lookupAttr aname attrib with
        | none => simp [parseCols, hla, hrest, Except.map]
        | some v' =>
          by_cases hsw : pyStartswith typ "INTEGER" = true
          · cases hpi : pyInt v' with
            | none => simp [parseCols, hla, hsw, hpi]
            | some n => simp [parseCols, hla, hsw, hpi, hrest, Except.map]
          · simp only [Bool.not_eq_true] at hsw
            simp [parseCols, hla, hsw, hrest, Except.map]

/-- Whenever `parse_row` succeeds, the row it built is exactly the one
§4.1 of the spec describes, column for column. -/
theorem parseCols_ok_spec (attrib : List (String × String)) :
    ∀ (sch : List (String × Option String × String)) (row : Row),
      parseCols attrib sch = .ok row →
      row = sch.map (fun c => (c.1, specColumnValue attrib c)) := by
  intro sch
  induction sch with
  | nil =>
    intro row h
    simp only [parseCols] at h
    cases h
    rfl
  | cons c0 rest ih =>
    intro row h
    obtain ⟨col, attr, typ⟩ := c0
    cases attr with
    | none =>
      cases hrest : parseCols attrib rest with
      | error e => simp [parseCols, hrest, Except.map] at h
      | ok r' =>
        simp only [parseCols, hrest, Except.map, Except.ok.injEq] at h
        subst h
        simp [List.map_cons, specColumnValue, ih r' hrest]
    | some aname =>
      cases hla : lookupAttr aname attrib with
      | none =>
        cases hrest : parseCols attrib rest with
        | error e => simp [parseCols, hla, hrest, Except.map] at h
        | ok r' =>
          simp only [parseCols, hla, hrest, Except.map, Except.ok.injEq] at h
          subst h
          simp [List.map_cons, specColumnValue, hla, ih r' hrest]
      | some v =>
        by_cases hsw : pyStartswith typ "INTEGER" = true
        · cases hpi : pyInt v with
          | none => simp [parseCols, hla, hsw, hpi] at h
          | some n =>
            cases hrest : parseCols attrib rest with
            | error e => simp [parseCols, hla, hsw, hpi, hrest, Except.map] at h
            | ok r' =>
              simp only [parseCols, hla, hsw, if_true, hpi, hrest, Except.map,
                Except.ok.injEq] at h
              subst h
              simp [List.map_cons, specColumnValue, hla, hsw, hpi, ih r' hrest]
        · simp only [Bool.not_eq_true] at hsw
          cases hrest : parseCols attrib rest with
          | error e => simp [parseCols, hla, hsw, hrest, Except.map] at h
          | ok r' =>
            simp only [parseCols, hla, hsw, Bool.false_eq_true, if_false, hrest,
              Except.map, Except.ok.injEq] at h
            subst h
            simp [List.map_cons, specColumnValue, hla, hsw, ih r' hrest]

/-! ### Unfolding lemmas for `insert_from_xml` -/

theorem insert_from_xml_committed (t : Table) (st : Store) (lines : List String)
    (eo : Bool) (f : Option (Row → Option Row)) (rows : List Row)
    (tbl : List (List (Option Value)))
    (h2 : 2 ≤ lines.length)
    (hpull : pullRows t f (lines.drop 2) = (rows, none))
    (hok : insertLoop eo st.pk st.fails st.rows rows = .ok tbl) :
    insert_from_xml t st lines eo f = ⟨.committed tbl, true, true⟩ := by
  unfold insert_from_xml
  rw [if_neg (by omega), hpull]
  simp [hok]

theorem insert_from_xml_failedPull (t : Table) (st : Store) (lines : List String)
    (eo : Bool) (f : Option (Row → Option Row)) (rows : List Row) (e : LoadErr)
    (tbl : List (List (Option Value)))
    (h2 : 2 ≤ lines.length)
    (hpull : pullRows t f (lines.drop 2) = (rows, some e))
    (hok : insertLoop eo st.pk st.fails st.rows rows = .ok tbl) :
    insert_from_xml t st lines eo f = ⟨.failed e, false, false⟩ := by
  unfold insert_from_xml
  rw [if_neg (by omega), hpull]
  simp [hok]

/-! ### The claims -/

/-- C10: on a source file of fewer than two lines, `insert_from_xml`
fails with `StopIteration` raised by the framing-line skip (`next(it)`
on the exhausted file iterator), before any row is parsed or inserted,
before the cursor exists, and before any commit. -/
theorem c10_short_file_stops (t : Table) (st : Store) (lines : List String)
    (eo : Bool) (f : Option (Row → Option Row)) (h : lines.length < 2) :
    insert_from_xml t st lines eo f = ⟨.failed .stopIteration, false, false⟩ := by
  unfold insert_from_xml
  rw [if_pos h]

theorem c10_witness :
    insert_from_xml sites st0 ["<?xml version=\"1.0\"?>"] false none
      = ⟨.failed .stopIteration, false, false⟩ :=
  c10_short_file_stops sites st0 ["<?xml version=\"1.0\"?>"] false none (by decide)

/-- A fatal-error exit path for C3: the third line's `Id` is non-numeric. -/
def c3lines : List String :=
  ["<?xml version=\"1.0\"?>", "<sites>", "<row Id=\"x\" />", "</sites>"]

/-- C3 counterexample: on this fatal exit path (non-numeric `Id` raises
mid-stream) the exception reaches the caller with neither `fd.close()`
nor `cur.close()` having executed, so the handles are NOT released on
every exit path as the claim states. -/
theorem c3_counterexample :
    insert_from_xml sites st0 c3lines false none
      = ⟨.failed .valueError, false, false⟩ := by
  decide

/-- C3 amended: the source file handle and the store cursor are released
exactly on the committed exits (normal completion and the
tolerated-duplicate loop exit); on every fatal exit the exception
propagates without either handle being closed, since the source has no
`try`/`finally` around the load. -/
theorem c3_amended_release_iff_commit (t : Table) (st : Store)
    (lines : List String) (eo : Bool) (f : Option (Row → Option Row)) :
    (insert_from_xml t st lines eo f).fdClosed
        = (insert_from_xml t st lines eo f).result.isCommitted
    ∧ (insert_from_xml t st lines eo f).curClosed
        = (insert_from_xml t st lines eo f).result.isCommitted := by
  unfold insert_from_xml
  split
  · exact ⟨rfl, rfl⟩
  · split
    · exact ⟨rfl, rfl⟩
    · split
      · exact ⟨rfl, rfl⟩
      · exact ⟨rfl, rfl⟩

/-- C7: the DDL operation emits `CREATE TABLE IF NOT EXISTS` over
`"{internal_name} {storage_type}"` for every column followed by the raw
constraint clauses (the spec-worded `specCreateSql`), and executing it
twice against the same store is idempotent: no error, and the catalogue
equals the one after a single execution. -/
theorem c7_ddl_idempotent (t : Table) (tables : List (String × String)) :
    create_if_not_exists t (create_if_not_exists t tables)
        = create_if_not_exists t tables
    ∧ createSql t = specCreateSql t := by
  constructor
  · by_cases h : tables.any (fun p => p.1 == t.name) = true
    · simp [create_if_not_exists, h]
    · simp only [Bool.not_eq_true] at h
      simp [create_if_not_exists, h]
  · rfl

/-- C6: whenever `parse_row` returns a row, that row has exactly one
entry per declared column, in declaration order, and each entry's value
is the one the spec describes: present source attribute → the raw
string, parsed to an integer for the integer storage family; attribute
configured as none, or absent from the record → null. -/
theorem c6_parse_row_matches_spec (t : Table) (attrib : List (String × String))
    (row : Row) (h : parse_row t attrib = .ok row) :
    row = specParsedRow t attrib
    ∧ row.map (fun p => p.1) = t.schema.map (fun c => c.1) := by
  have h1 := parseCols_ok_spec attrib t.schema row h
  refine ⟨h1, ?_⟩
  rw [h1]
  simp [List.map_map]

theorem c6_witness :
    ([("id", some (Value.int 7)), ("url", some (Value.text "u")),
      ("tiny_name", none), ("long_name", none), ("name", none),
      ("parent_id", none), ("tagline", none), ("badge_icon_url", none)] : Row)
        = specParsedRow sites [("Id", "7"), ("Url", "u")]
    ∧ ([("id", some (Value.int 7)), ("url", some (Value.text "u")),
      ("tiny_name", none), ("long_name", none), ("name", none),
      ("parent_id", none), ("tagline", none), ("badge_icon_url", none)] : Row).map
        (fun p => p.1) = sites.schema.map (fun c => c.1) :=
  c6_parse_row_matches_spec sites [("Id", "7"), ("Url", "u")]
    [("id", some (Value.int 7)), ("url", some (Value.text "u")),
      ("tiny_name", none), ("long_name", none), ("name", none),
      ("parent_id", none), ("tagline", none), ("badge_icon_url", none)]
    rfl

/-- The C1 scenario: 5 record lines, line 3 repeating the primary key
(`Id` 1) of line 1. -/
def c1lines : List String :=
  ["<?xml version=\"1.0\" encoding=\"utf-8\"?>",
   "<sites>",
   "  <row Id=\"1\" Url=\"u1\" />",
   "  <row Id=\"2\" Url=\"u2\" />",
   "  <row Id=\"1\" Url=\"u3\" />",
   "  <row Id=\"4\" Url=\"u4\" />",
   "  <row Id=\"5\" Url=\"u5\" />",
   "</sites>"]

/-- Bind values of one `sites` record carrying only `Id` and `Url`. -/
def c1row (i : Int) (u : String) : List (Option Value) :=
  [some (.int i), some (.text u), none, none, none, none, none, none]

/-- C1 counterexample: with `exist_ok=false` on the 5-record source whose
line 3 duplicates the primary key of line 1, the load does NOT propagate
a fatal IntegrityViolation — `except IntegrityError: continue` catches
it, the duplicate row is skipped, and the transaction commits exactly 4
rows, contrary to the claim's `exist_ok=false` half. -/
theorem c1_counterexample :
    insert_from_xml sites st0 c1lines false none
      = ⟨.committed [c1row 1 "u1", c1row 2 "u2", c1row 4 "u4", c1row 5 "u5"],
         true, true⟩ := by
  decide

/-- C1 amended: on that source, `exist_ok=true` yields exactly 4
committed rows and no propagated error, and `exist_ok=false` yields the
same 4 committed rows and no propagated error either: the
`IntegrityError` is caught by the loader and the duplicate skipped. -/
theorem c1_amended_both_commit_four :
    insert_from_xml sites st0 c1lines true none
        = ⟨.committed [c1row 1 "u1", c1row 2 "u2", c1row 4 "u4", c1row 5 "u5"],
           true, true⟩
    ∧ insert_from_xml sites st0 c1lines false none
        = ⟨.committed [c1row 1 "u1", c1row 2 "u2", c1row 4 "u4", c1row 5 "u5"],
           true, true⟩ := by
  decide

/-- C2: a uniqueness/integrity violation on a pulled row does not abort
the load: for any yielded row sequence `pre ++ d :: post` where `d`
conflicts with the table as it stands after `pre`, the loader drops `d`,
resumes with the remaining rows `post`, and the single `db.commit()` at
the end commits the result of processing all of them — under either
`exist_ok` setting, with no per-batch commit modelled anywhere. -/
theorem c2_integrity_violation_tolerated (t : Table) (st : Store)
    (lines : List String) (eo : Bool) (f : Option (Row → Option Row))
    (pre post : List Row) (d : Row)
    (h2 : 2 ≤ lines.length)
    (hpull : pullRows t f (lines.drop 2) = (pre ++ d :: post, none))
    (hf : ∀ v, st.fails v = false)
    (hdup : conflictsWith st.pk (insertAll st.pk st.rows pre) (vals d) = true) :
    insert_from_xml t st lines eo f
      = ⟨.committed (insertAll st.pk (insertAll st.pk st.rows pre) post),
         true, true⟩ := by
  have hok := insertLoop_ok eo st.pk st.fails hf (pre ++ d :: post) st.rows
  rw [insertAll_append, insertAll_conflict_cons st.pk _ d post hdup] at hok
  exact insert_from_xml_committed t st lines eo f _ _ h2 hpull hok

/-- The C2 witness scenario: `c1lines` again, as its own definition. -/
def c2lines : List String :=
  ["<?xml version=\"1.0\" encoding=\"utf-8\"?>",
   "<sites>",
   "  <row Id=\"1\" Url=\"u1\" />",
   "  <row Id=\"2\" Url=\"u2\" />",
   "  <row Id=\"1\" Url=\"u3\" />",
   "  <row Id=\"4\" Url=\"u4\" />",
   "  <row Id=\"5\" Url=\"u5\" />",
   "</sites>"]

/-- A parsed `sites` Row carrying only `Id` and `Url`. -/
def c2row (i : Int) (u : String) : Row :=
  [("id", some (.int i)), ("url", some (.text u)), ("tiny_name", none),
   ("long_name", none), ("name", none), ("parent_id", none), ("tagline", none),
   ("badge_icon_url", none)]

theorem c2_witness :
    insert_from_xml sites st0 c2lines false none
      = ⟨.committed (insertAll st0.pk
            (insertAll st0.pk st0.rows [c2row 1 "u1", c2row 2 "u2"])
            [c2row 4 "u4", c2row 5 "u5"]),
         true, true⟩ :=
  c2_integrity_violation_tolerated sites st0 c2lines false none
    [c2row 1 "u1", c2row 2 "u2"] [c2row 4 "u4", c2row 5 "u5"] (c2row 1 "u3")
    (by decide) (by decide) (fun _ => rfl) (by decide)

/-- C4: a record line whose integer-typed source attribute holds
non-numeric text aborts the whole load: `int()`'s exception propagates
out of the generator through `executemany` to the caller (it is not a
`sqlite3.Error`, so neither handler swallows it) and the transaction is
never committed. -/
theorem c4_bad_int_aborts (t : Table) (st : Store) (lines : List String)
    (eo : Bool) (f : Option (Row → Option Row)) (pre rest : List String)
    (bad : String) (attrib : List (String × String))
    (h2 : 2 ≤ lines.length)
    (hbody : lines.drop 2 = pre ++ bad :: rest)
    (hpre : ∀ l ∈ pre, (strip l == endtag t) = false ∧ lineOk t l = true)
    (hbe : (strip bad == endtag t) = false)
    (hx : fromstring (strip bad) = .ok attrib)
    (hcol : ∃ c ∈ t.schema, ∃ a, c.2.1 = some a ∧
        ∃ v, lookupAttr a attrib = some v ∧
          pyStartswith c.2.2 "INTEGER" = true ∧ pyInt v = none)
    (hf : ∀ v, st.fails v = false) :
    insert_from_xml t st lines eo f = ⟨.failed .valueError, false, false⟩ := by
  have hperr : parse_row t attrib = .error .valueError :=
    parseCols_bad attrib t.schema hcol
  obtain ⟨rows0, hrows0⟩ := pullRows_append_good t f pre (bad :: rest) hpre
  rw [pullRows_cons_parseerr t f bad rest attrib .valueError hbe hx hperr]
    at hrows0
  simp only [List.append_nil] at hrows0
  have hpull : pullRows t f (lines.drop 2) = (rows0, some .valueError) := by
    rw [hbody, hrows0]
  exact insert_from_xml_failedPull t st lines eo f rows0 .valueError _ h2 hpull
    (insertLoop_ok eo st.pk st.fails hf rows0 st.rows)

/-- The C4 witness scenario: a good record, then one whose `Id` is the
non-numeric text `abc`. -/
def c4lines : List String :=
  ["<?xml version=\"1.0\"?>", "<sites>",
   "<row Id=\"1\" />", "<row Id=\"abc\" />", "</sites>"]

theorem c4_witness :
    insert_from_xml sites st0 c4lines false none
      = ⟨.failed .valueError, false, false⟩ :=
  c4_bad_int_aborts sites st0 c4lines false none ["<row Id=\"1\" />"]
    ["</sites>"] "<row Id=\"abc\" />" [("Id", "abc")]
    (by decide) (by decide) (by decide) (by decide) rfl
    ⟨("id", some "Id", "INTEGER PRIMARY KEY"), by decide, "Id", rfl, "abc",
      by decide, by decide, by decide⟩
    (fun _ => rfl)

/-- C5: for a well-formed source stream (every record line parses) on a
well-behaved store, the load commits; the committed row count equals the
record-line count minus the filter-discarded lines minus the
integrity-dropped rows, and never exceeds the record-line count; and the
all-discarding row filter yields zero inserted rows with the load still
committing. -/
theorem c5_row_accounting (t : Table) (st : Store) (lines : List String)
    (eo : Bool) (f : Option (Row → Option Row)) (rows : List Row)
    (h2 : 2 ≤ lines.length)
    (hpull : pullRows t f (lines.drop 2) = (rows, none))
    (hf : ∀ v, st.fails v = false)
    (hwf : ∀ l ∈ recordLines t (lines.drop 2), lineOk t l = true) :
    insert_from_xml t st lines eo f
        = ⟨.committed (insertAll st.pk st.rows rows), true, true⟩
    ∧ (insertAll st.pk st.rows rows).length + droppedCount st.pk st.rows rows
          + countFiltered t f (lines.drop 2)
        = st.rows.length + (recordLines t (lines.drop 2)).length
    ∧ (insertAll st.pk st.rows rows).length
        ≤ st.rows.length + (recordLines t (lines.drop 2)).length
    ∧ insert_from_xml t st lines eo (some (fun _ => none))
        = ⟨.committed st.rows, true, true⟩ := by
  have hcount := pullRows_count t f (lines.drop 2) rows hpull
  have hlen := insertAll_length st.pk rows st.rows
  refine ⟨insert_from_xml_committed t st lines eo f rows _ h2 hpull
      (insertLoop_ok eo st.pk st.fails hf rows st.rows),
    by omega, by omega, ?_⟩
  exact insert_from_xml_committed t st lines eo (some (fun _ => none)) [] _ h2
    (pullRows_filter_none t (lines.drop 2) hwf)
    (insertLoop_ok eo st.pk st.fails hf [] st.rows)

/-- The C5 witness scenario: three record lines, the second a duplicate
primary key. -/
def c5lines : List String :=
  ["<?xml version=\"1.0\"?>", "<sites>",
   "<row Id=\"1\" />", "<row Id=\"1\" />", "<row Id=\"2\" />", "</sites>"]

/-- A parsed `sites` Row carrying only `Id`. -/
def c5row (i : Int) : Row :=
  [("id", some (.int i)), ("url", none), ("tiny_name", none),
   ("long_name", none), ("name", none), ("parent_id", none), ("tagline", none),
   ("badge_icon_url", none)]

theorem c5_witness :
    insert_from_xml sites st0 c5lines false none
        = ⟨.committed (insertAll st0.pk st0.rows [c5row 1, c5row 1, c5row 2]),
           true, true⟩
    ∧ (insertAll st0.pk st0.rows [c5row 1, c5row 1, c5row 2]).length
          + droppedCount st0.pk st0.rows [c5row 1, c5row 1, c5row 2]
          + countFiltered sites none (c5lines.drop 2)
        = st0.rows.length + (recordLines sites (c5lines.drop 2)).length
    ∧ (insertAll st0.pk st0.rows [c5row 1, c5row 1, c5row 2]).length
        ≤ st0.rows.length + (recordLines sites (c5lines.drop 2)).length
    ∧ insert_from_xml sites st0 c5lines false (some (fun _ => none))
        = ⟨.committed st0.rows, true, true⟩ :=
  c5_row_accounting sites st0 c5lines false none [c5row 1, c5row 1, c5row 2]
    (by decide) (by decide) (fun _ => rfl) (by decide)

/-- C8: when the insertion of a pulled row raises a store-level error
other than an integrity violation, the load is fatal: the error is
re-raised to the caller carrying the values of the last
successfully-prepared row — the row whose insertion failed, which
`last_row` holds at that moment — and the transaction is not
committed. -/
theorem c8_store_error_fatal (t : Table) (st : Store) (lines : List String)
    (eo : Bool) (f : Option (Row → Option Row)) (pre rest : List Row) (r : Row)
    (perr : Option LoadErr)
    (h2 : 2 ≤ lines.length)
    (hpull : pullRows t f (lines.drop 2) = (pre ++ r :: rest, perr))
    (hpre : ∀ row ∈ pre, st.fails (vals row) = false)
    (hr : st.fails (vals r) = true) :
    insert_from_xml t st lines eo f
      = ⟨.failed (.storeError r), false, false⟩ := by
  have hloop := insertLoop_fail eo st.pk st.fails r rest hr pre st.rows hpre
  unfold insert_from_xml
  rw [if_neg (by omega), hpull]
  simp [hloop]

/-- The C8 witness scenario: two records; the store raises a
non-integrity error on any row whose first value is the integer 2. -/
def c8lines : List String :=
  ["<?xml version=\"1.0\"?>", "<sites>",
   "<row Id=\"1\" />", "<row Id=\"2\" />", "</sites>"]

/-- A store that fails fatally on rows whose `id` value is 2. -/
def c8store : Store :=
  ⟨[0], fun v => v.getD 0 none == some (Value.int 2), []⟩

/-- A parsed `sites` Row carrying only `Id`. -/
def c8row (i : Int) : Row :=
  [("id", some (.int i)), ("url", none), ("tiny_name", none),
   ("long_name", none), ("name", none), ("parent_id", none), ("tagline", none),
   ("badge_icon_url", none)]

theorem c8_witness :
    insert_from_xml sites c8store c8lines false none
      = ⟨.failed (.storeError (c8row 2)), false, false⟩ :=
  c8_store_error_fatal sites c8store c8lines false none [c8row 1] [] (c8row 2)
    none (by decide) (by decide) (by decide) (by decide)

/-- C9: if the stream ends without the closing root tag, the load
behaves exactly as if the closing tag had been present — appending it
changes nothing — and, when every record line parsed cleanly on a
well-behaved store, the rows read before end of file are inserted and
the transaction commits. -/
theorem c9_eof_without_endtag (t : Table) (st : Store) (lines : List String)
    (eo : Bool) (f : Option (Row → Option Row)) (l : String) (rows : List Row)
    (h2 : 2 ≤ lines.length)
    (hl : (strip l == endtag t) = true)
    (hpull : pullRows t f (lines.drop 2) = (rows, none))
    (hf : ∀ v, st.fails v = false) :
    insert_from_xml t st lines eo f = insert_from_xml t st (lines ++ [l]) eo f
    ∧ insert_from_xml t st lines eo f
        = ⟨.committed (insertAll st.pk st.rows rows), true, true⟩ := by
  constructor
  · have hdrop : (lines ++ [l]).drop 2 = lines.drop 2 ++ [l] :=
      List.drop_append_of_le_length h2
    have hpr : pullRows t f ((lines ++ [l]).drop 2) = pullRows t f (lines.drop 2) := by
      rw [hdrop]
      exact pullRows_append_endtag t f l hl (lines.drop 2)
    unfold insert_from_xml
    rw [if_neg (by omega), if_neg (by simp only [List.length_append]; omega), hpr]
  · exact insert_from_xml_committed t st lines eo f rows _ h2 hpull
      (insertLoop_ok eo st.pk st.fails hf rows st.rows)

/-- The C9 witness scenario: one record line and then end of file, with
no closing `</sites>` line anywhere. -/
def c9lines : List String :=
  ["<?xml version=\"1.0\"?>", "<sites>", "<row Id=\"3\" />"]

/-- A parsed `sites` Row carrying only `Id`. -/
def c9row (i : Int) : Row :=
  [("id", some (.int i)), ("url", none), ("tiny_name", none),
   ("long_name", none), ("name", none), ("parent_id", none), ("tagline", none),
   ("badge_icon_url", none)]

theorem c9_witness :
    insert_from_xml sites st0 c9lines false none
        = insert_from_xml sites st0 (c9lines ++ ["</sites>"]) false none
    ∧ insert_from_xml sites st0 c9lines false none
        = ⟨.committed (insertAll st0.pk st0.rows [c9row 3]), true, true⟩ :=
  c9_eof_without_endtag sites st0 c9lines false none "</sites>" [c9row 3]
    (by decide) (by decide) (by decide) (fun _ => rfl)

end Stackexchange
